import Mathlib

/-!
Shallow embedding of the WEB_14 contacts-management backend
(src/WEB_14Poe): the auth flow (signup, login, refresh-token rotation,
email confirmation) from src/routes/auth.py and src/repository/users.py,
and the per-user contacts repository from src/repository/contacts.py with
its route layer src/routes/contacts.py.

The token service (src/services/auth.py), the mail sender, the message
constants (src/conf/messages.py) and the user schemas are not part of the
provided sources; those pieces are modelled from the specification and
are marked as such in their doc comments.  Everything else is translated
directly from the Python source.
-/

namespace Web14

/-! ### Calendar dates

`Contact.birthday` is a SQL `Date`; SQL compares dates chronologically,
which is lexicographic on (year, month, day).  `datetime.timedelta(days=7)`
is exact calendar day addition, modelled by iterating `nextDay` over the
Gregorian calendar. -/

structure MDate where
  year : Nat
  month : Nat
  day : Nat
deriving DecidableEq, Repr

def isLeap (y : Nat) : Bool :=
  (y % 4 == 0 && y % 100 != 0) || y % 400 == 0

def daysInMonth (y m : Nat) : Nat :=
  if m = 2 then (if isLeap y then 29 else 28)
  else if m = 4 ∨ m = 6 ∨ m = 9 ∨ m = 11 then 30
  else 31

def nextDay (d : MDate) : MDate :=
  if d.day < daysInMonth d.year d.month then ⟨d.year, d.month, d.day + 1⟩
  else if d.month < 12 then ⟨d.year, d.month + 1, 1⟩
  else ⟨d.year + 1, 1, 1⟩

def addDays (d : MDate) : Nat → MDate
  | 0 => d
  | n + 1 => nextDay (addDays d n)

/-- Chronological (lexicographic) comparison of SQL dates. -/
def dateLeb (a b : MDate) : Bool :=
  if a.year ≠ b.year then decide (a.year < b.year)
  else if a.month ≠ b.month then decide (a.month < b.month)
  else decide (a.day ≤ b.day)

/-! ### Tokens

Modelled from the spec: src/services/auth.py is not among the provided
sources.  Per spec §4.2 the token service mints signed, expiring tokens
distinguished by a scope claim (access / refresh / email); each minted
token is fresh (distinct issue identity).  We model a well-signed token
as a record of its issue id, subject email and scope; minting draws ids
from a monotone counter.  Expiry is real time and is not modelled. -/

inductive Scope
  | access
  | refresh
  | email
deriving DecidableEq, Repr

structure Token where
  id : Nat
  sub : String
  scope : Scope
deriving DecidableEq, Repr

/-- Modelled from the spec: `decode_refresh_token` verifies the signature
and asserts scope == "refresh"; on success returns the subject email,
on failure the caller raises Unauthorized. -/
def decode_refresh_token (t : Token) : Option String :=
  if t.scope = Scope.refresh then some t.sub else none

/-- Modelled from the spec: `get_email_from_token` verifies an
email-confirmation token and returns the subject email. -/
def get_email_from_token (t : Token) : Option String :=
  if t.scope = Scope.email then some t.sub else none

/-- Modelled from the spec: one-way password hashing (Credential Hasher,
spec §4.1).  The concrete digest format is irrelevant to the claims;
only `verify_password` below is consistent with it. -/
def get_password_hash (plain : String) : String :=
  String.append "hashed$" plain

/-- Modelled from the spec: `verify(plaintext, digest)` returns true
exactly when the digest is the hash of the plaintext. -/
def verify_password (plain hashed : String) : Bool :=
  hashed == get_password_hash plain

/-! ### Users (src/database/models.py, class User) -/

structure User where
  id : Nat
  username : String
  email : String
  password : String
  avatar : Option String
  refresh_token : Option Token
  confirmed : Bool
deriving DecidableEq, Repr

/-- Modelled from the spec: the signup request schema
(src/schemas/user.py is not among the provided sources): username,
email, password. -/
structure UserSchema where
  username : String
  email : String
  password : String
deriving DecidableEq, Repr

/-- The users table, plus the token-service mint counter. -/
structure AuthState where
  users : List User
  nextTokenId : Nat
deriving DecidableEq, Repr

/-- Modelled from the spec: messages.ACCOUNT_EXIST
(src/conf/messages.py is not among the provided sources). -/
def ACCOUNT_EXIST : String := "Account already exists"

/-- Modelled from the spec: Gravatar avatar URL derived from the email
(repository create_user assigns it; the exact URL is irrelevant). -/
def gravatar_image (email : String) : String :=
  String.append "gravatar/" email

/-- HTTP-level outcomes: `http code detail` is a raised HTTPException;
`attributeError` is an unhandled Python AttributeError, surfaced as a
server error (500). -/
inductive RespError
  | http (code : Nat) (detail : String)
  | attributeError (msg : String)
deriving DecidableEq, Repr

structure TokenPair where
  access_token : Token
  refresh_token : Token
  token_type : String
deriving DecidableEq, Repr

/-- Minting an access token: spec §4.2, scope = "access"; fresh id. -/
def create_access_token (st : AuthState) (sub : String) : Token × AuthState :=
  (⟨st.nextTokenId, sub, Scope.access⟩, { st with nextTokenId := st.nextTokenId + 1 })

/-- Minting a refresh token: spec §4.2, scope = "refresh"; fresh id. -/
def create_refresh_token (st : AuthState) (sub : String) : Token × AuthState :=
  (⟨st.nextTokenId, sub, Scope.refresh⟩, { st with nextTokenId := st.nextTokenId + 1 })

namespace Repo

/-- src/repository/users.py `get_user_by_email`: SELECT by email,
scalar_one_or_none. -/
def get_user_by_email (email : String) (db : List User) : Option User :=
  db.find? (fun u => u.email == email)

/-- src/repository/users.py `create_user`: builds the User from the
schema fields plus the Gravatar avatar and inserts it (fresh primary
key; `confirmed` defaults to false, `refresh_token` to null). -/
def create_user (body : UserSchema) (db : List User) : User × List User :=
  let new_user : User :=
    { id := db.length, username := body.username, email := body.email,
      password := body.password, avatar := some (gravatar_image body.email),
      refresh_token := none, confirmed := false }
  (new_user, db ++ [new_user])

/-- src/repository/users.py `update_token`: sets `user.refresh_token`
to the given value (possibly null) and commits. -/
def update_token (user : User) (token : Option Token) (db : List User) : List User :=
  db.map (fun u => if u.id = user.id then { u with refresh_token := token } else u)

/-- src/repository/users.py `confirmed_email`: looks the user up by
email and sets `confirmed = True`. -/
def confirmed_email (email : String) (db : List User) : List User :=
  db.map (fun u => if u.email = email then { u with confirmed := true } else u)

end Repo

namespace Routes

/-- src/routes/auth.py `signup`: 409 Conflict if the email is taken;
otherwise hash the password, create the user, queue the confirmation
email as a background task and return the created user.  The middle
component lists the emails queued for background dispatch. -/
def signup (st : AuthState) (body : UserSchema) :
    AuthState × List String × Except RespError User :=
  match Repo.get_user_by_email body.email st.users with
  | some _ => (st, [], Except.error (RespError.http 409 ACCOUNT_EXIST))
  | none =>
    let hashed := get_password_hash body.password
    let created := Repo.create_user { body with password := hashed } st.users
    ({ st with users := created.2 }, [created.1.email], Except.ok created.1)

/-- src/routes/auth.py `login`: three guarded 401 failures (no user,
unconfirmed, bad password), then mint an access+refresh pair and store
the refresh token. -/
def login (st : AuthState) (username password : String) :
    AuthState × Except RespError TokenPair :=
  match Repo.get_user_by_email username st.users with
  | none => (st, Except.error (RespError.http 401 "Invalid email"))
  | some user =>
    if user.confirmed = false then
      (st, Except.error (RespError.http 401 "Email is not confirmed"))
    else if verify_password password user.password = false then
      (st, Except.error (RespError.http 401 "Invalid password"))
    else
      let a := create_access_token st user.email
      let r := create_refresh_token a.2 user.email
      ({ r.2 with users := Repo.update_token user (some r.1) r.2.users },
       Except.ok { access_token := a.1, refresh_token := r.1, token_type := "bearer" })

/-- src/routes/auth.py `refresh_token`: decode the presented token (401
on failure, per the spec-modelled token service); look the user up by the
decoded subject (a missing user makes `user.refresh_token` raise
AttributeError); on stored/presented mismatch clear the stored token and
fail 401; otherwise mint a fresh pair and store the new refresh token. -/
def refresh_token (st : AuthState) (credentials : Token) :
    AuthState × Except RespError TokenPair :=
  match decode_refresh_token credentials with
  | none => (st, Except.error (RespError.http 401 "Could not validate credentials"))
  | some email =>
    match Repo.get_user_by_email email st.users with
    | none => (st, Except.error (RespError.attributeError "NoneType has no attribute refresh_token"))
    | some user =>
      if user.refresh_token ≠ some credentials then
        ({ st with users := Repo.update_token user none st.users },
         Except.error (RespError.http 401 "Invalid refresh token"))
      else
        let a := create_access_token st email
        let r := create_refresh_token a.2 email
        ({ r.2 with users := Repo.update_token user (some r.1) r.2.users },
         Except.ok { access_token := a.1, refresh_token := r.1, token_type := "bearer" })

/-- src/routes/auth.py `confirmed_email`: decode the confirmation token
(400 on failure); 400 if the subject names no user; if already confirmed
return the idempotent message; otherwise flip the confirmed flag. -/
def confirmed_email (st : AuthState) (token : Token) :
    AuthState × Except RespError String :=
  match get_email_from_token token with
  | none => (st, Except.error (RespError.http 400 "Invalid token for email verification"))
  | some email =>
    match Repo.get_user_by_email email st.users with
    | none => (st, Except.error (RespError.http 400 "Verification error"))
    | some user =>
      if user.confirmed then (st, Except.ok "Your email is already confirmed")
      else ({ st with users := Repo.confirmed_email email st.users },
            Except.ok "Email confirmed")

/-- src/routes/auth.py `request_email`: looks the user up by email and
immediately reads `user.confirmed` — when no user exists this is an
AttributeError on None (the `if user:` guard comes only afterwards).
The middle component lists emails queued for background dispatch. -/
def request_email (st : AuthState) (email : String) :
    AuthState × List String × Except RespError String :=
  match Repo.get_user_by_email email st.users with
  | none => (st, [], Except.error (RespError.attributeError "NoneType has no attribute confirmed"))
  | some user =>
    if user.confirmed then (st, [], Except.ok "Your email is already confirmed")
    else (st, [user.email], Except.ok "Check your email for confirmation.")

end Routes

/-! ### Contacts (src/database/models.py class Contact,
src/repository/contacts.py, src/routes/contacts.py) -/

structure Contact where
  id : Nat
  firstname : String
  surname : String
  email : String
  phone : String
  birthday : MDate
  details : Option String
  user_id : Nat
deriving DecidableEq, Repr

structure ContactSchema where
  firstname : String
  surname : String
  email : String
  phone : String
  birthday : MDate
  details : Option String
deriving DecidableEq, Repr

/-- The contacts table with its primary-key sequence. -/
structure ContactsDb where
  rows : List Contact
  nextId : Nat
deriving DecidableEq, Repr

/-- SQL LIKE-pattern matching over character lists: `%` matches any run
(some suffix of the text matches the rest of the pattern), `_` any single
character, anything else itself. -/
def likeMatch : List Char → List Char → Bool
  | [], s => s.isEmpty
  | '%' :: ps, s => s.tails.any (fun suf => likeMatch ps suf)
  | '_' :: ps, s =>
    match s with
    | [] => false
    | _ :: cs => likeMatch ps cs
  | p :: ps, s =>
    match s with
    | [] => false
    | c :: cs => p == c && likeMatch ps cs

/-- ASCII-wise lowering of a string to its character list. -/
def lowerChars (s : String) : List Char :=
  s.data.map Char.toLower

/-- SQLAlchemy `column.ilike(query)`: case-insensitive LIKE. -/
def ilike (col query : String) : Bool :=
  likeMatch (lowerChars query) (lowerChars col)

namespace Repo

/-- src/repository/contacts.py `get_contacts`: contacts of the user,
with OFFSET then LIMIT. -/
def get_contacts (limit offset : Nat) (db : ContactsDb) (user : User) : List Contact :=
  (((db.rows.filter (fun c => c.user_id == user.id)).drop offset).take limit)

/-- src/repository/contacts.py `search_contacts`: the user's contacts
whose firstname, surname or email matches the query case-insensitively. -/
def search_contacts (query : String) (db : ContactsDb) (user : User) : List Contact :=
  (db.rows.filter (fun c => c.user_id == user.id)).filter
    (fun c => ilike c.firstname query || ilike c.surname query || ilike c.email query)

/-- src/repository/contacts.py `get_contact`: SELECT by id and owning
user, scalar_one_or_none. -/
def get_contact (contact_id : Nat) (db : ContactsDb) (user : User) : Option Contact :=
  db.rows.find? (fun c => c.id == contact_id && c.user_id == user.id)

/-- src/repository/contacts.py `create_contact`: inserts a contact built
from the schema fields, owned by the given user. -/
def create_contact (body : ContactSchema) (db : ContactsDb) (user : User) :
    Contact × ContactsDb :=
  let contact : Contact :=
    { id := db.nextId, firstname := body.firstname, surname := body.surname,
      email := body.email, phone := body.phone, birthday := body.birthday,
      details := body.details, user_id := user.id }
  (contact, { rows := db.rows ++ [contact], nextId := db.nextId + 1 })

/-- src/repository/contacts.py `update_contact`: SELECT by id and owning
user; when found, overwrite the data fields and commit; return the
updated contact, or none. -/
def update_contact (contact_id : Nat) (body : ContactSchema) (db : ContactsDb)
    (user : User) : Option Contact × ContactsDb :=
  match db.rows.find? (fun c => c.id == contact_id && c.user_id == user.id) with
  | none => (none, db)
  | some c =>
    let c2 : Contact :=
      { c with firstname := body.firstname, surname := body.surname,
               email := body.email, phone := body.phone,
               birthday := body.birthday, details := body.details }
    let rows2 := db.rows.map
      (fun x => if x.id == contact_id && x.user_id == user.id then c2 else x)
    (some c2, { db with rows := rows2 })

/-- src/repository/contacts.py `delete_contact`: SELECT by id and owning
user; when found, delete that row and commit; return the deleted contact,
or none. -/
def delete_contact (contact_id : Nat) (db : ContactsDb) (user : User) :
    Option Contact × ContactsDb :=
  match db.rows.find? (fun c => c.id == contact_id && c.user_id == user.id) with
  | none => (none, db)
  | some c => (some c, { db with rows := db.rows.erase c })

/-- src/repository/contacts.py `get_upcoming_birthdays`: the user's
contacts whose birthday, compared as a full SQL date, lies between today
and today + 7 days inclusive.  `today` (datetime.now().date()) is taken
as an explicit parameter. -/
def get_upcoming_birthdays (today : MDate) (db : ContactsDb) (user : User) :
    List Contact :=
  let week_from_today := addDays today 7
  (db.rows.filter (fun c => c.user_id == user.id)).filter
    (fun c => dateLeb today c.birthday && dateLeb c.birthday week_from_today)

end Repo

namespace Routes

/-- src/routes/contacts.py `get_contact`: 404 when the repository finds
nothing, otherwise the contact. -/
def get_contact (contact_id : Nat) (db : ContactsDb) (user : User) :
    Except RespError Contact :=
  match Repo.get_contact contact_id db user with
  | none => Except.error (RespError.http 404 "NOT FOUND")
  | some c => Except.ok c

/-- src/routes/contacts.py `delete_contact`: calls the repository delete
and returns its (possibly absent) result directly with status 204; there
is no branch raising 404 on absence. -/
def delete_contact (contact_id : Nat) (db : ContactsDb) (user : User) :
    ContactsDb × Except RespError (Option Contact) :=
  let r := Repo.delete_contact contact_id db user
  (r.2, Except.ok r.1)

end Routes

/-! ### Concrete values used by the witness theorems -/

def w1_user : User :=
  ⟨1, "ann", "a@x", "hashed$pw", none, some ⟨3, "a@x", Scope.refresh⟩, true⟩

def w1_st : AuthState := ⟨[w1_user], 5⟩

def w1_tok : Token := ⟨3, "a@x", Scope.refresh⟩

def w1_st2 : AuthState :=
  ⟨[⟨1, "ann", "a@x", "hashed$pw", none, some ⟨6, "a@x", Scope.refresh⟩, true⟩], 7⟩

def w1_pair : TokenPair :=
  ⟨⟨5, "a@x", Scope.access⟩, ⟨6, "a@x", Scope.refresh⟩, "bearer"⟩

def w2_user : User :=
  ⟨1, "bob", "b@x", "hashed$pw", none, some ⟨2, "b@x", Scope.refresh⟩, true⟩

def w2_st : AuthState := ⟨[w2_user], 4⟩

def w2_tok : Token := ⟨0, "b@x", Scope.refresh⟩

def w3_unconfirmed : User := ⟨1, "bob", "b@x", "hashed$pw", none, none, false⟩

def w3_confirmed : User := ⟨1, "bob", "b@x", "hashed$pw", none, none, true⟩

def w3_st : AuthState := ⟨[w3_unconfirmed], 0⟩

def w3_st2 : AuthState := ⟨[w3_confirmed], 0⟩

def w5_user : User := ⟨1, "cat", "c@x", "hashed$pw", none, none, false⟩

def w5_st : AuthState := ⟨[w5_user], 0⟩

def w5_tok : Token := ⟨9, "c@x", Scope.email⟩

def w7_body : UserSchema := ⟨"dan", "d@x", "pw"⟩

def w8_user : User := ⟨1, "eve", "e@x", "hashed$pw", none, none, true⟩

def w8_contact : Contact :=
  ⟨1, "Oleh", "Sol", "o@x", "123", ⟨1990, 10, 14⟩, none, 1⟩

def w8_db : ContactsDb := ⟨[w8_contact], 2⟩

def w9_user : User := ⟨1, "flo", "f@x", "hashed$pw", none, none, true⟩

def w10_user : User := ⟨1, "gus", "g@x", "hashed$pw", none, none, true⟩

def w10_contact : Contact :=
  ⟨1, "Oleh", "Sol", "o@x", "123", ⟨1990, 10, 14⟩, none, 1⟩

def w10_db : ContactsDb := ⟨[w10_contact], 2⟩

def w10_today : MDate := ⟨2026, 10, 12⟩

/-! ### Helper lemmas -/

/-- Mapping a function across a list commutes with `find?` when the
function does not change the predicate value. -/
theorem find?_map_of_pred {α : Type} (f : α → α) (p : α → Bool) (l : List α)
    (h : ∀ x, p (f x) = p x) : (l.map f).find? p = (l.find? p).map f := by
  induction l with
  | nil => rfl
  | cons x xs ih =>
    simp only [List.map_cons]
    cases hx : p x with
    | true =>
      rw [List.find?_cons_of_pos _ (by rw [h x]; exact hx),
        List.find?_cons_of_pos _ hx, Option.map_some']
    | false =>
      rw [List.find?_cons_of_neg _ (by rw [h x, hx]; simp),
        List.find?_cons_of_neg _ (by rw [hx]; simp), ih]

/-- Filtering after mapping is the identity on the filtered part when the
map fixes every element satisfying the predicate and never changes the
predicate value. -/
theorem filter_map_id_of_pred {α : Type} (p : α → Bool) (g : α → α) (l : List α)
    (h1 : ∀ x, p x = true → g x = x) (h2 : ∀ x, p (g x) = p x) :
    (l.map g).filter p = l.filter p := by
  induction l with
  | nil => rfl
  | cons x xs ih =>
    simp only [List.map_cons, List.filter_cons, h2 x]
    cases hx : p x with
    | true => simp [ih, h1 x hx]
    | false => simp [ih]

/-- Erasing an element that fails the predicate does not change the
filtered list. -/
theorem filter_erase_of_neg {α : Type} [DecidableEq α] (p : α → Bool) (a : α)
    (l : List α) (h : p a = false) : (l.erase a).filter p = l.filter p := by
  induction l with
  | nil => rfl
  | cons x xs ih =>
    by_cases hx : x = a
    · subst hx
      rw [List.erase_cons_head, List.filter_cons, h]
      simp
    · rw [List.erase_cons_tail (by simpa using hx), List.filter_cons, List.filter_cons, ih]

/-- Looking a user up by email after `update_token` finds the same user,
with the refresh-token slot rewritten when its id matches. -/
theorem get_user_by_email_update_token (email : String) (u : User) (t : Option Token)
    (db : List User) :
    Repo.get_user_by_email email (Repo.update_token u t db) =
      (Repo.get_user_by_email email db).map
        (fun v => if v.id = u.id then { v with refresh_token := t } else v) := by
  unfold Repo.get_user_by_email Repo.update_token
  apply find?_map_of_pred
  intro x
  by_cases hid : x.id = u.id <;> simp [hid]

/-- Looking a user up by email after the repository `confirmed_email`
finds the same user, with the confirmed flag rewritten when its email
matches. -/
theorem get_user_by_email_confirmed (email : String) (em2 : String) (db : List User) :
    Repo.get_user_by_email email (Repo.confirmed_email em2 db) =
      (Repo.get_user_by_email email db).map
        (fun v => if v.email = em2 then { v with confirmed := true } else v) := by
  unfold Repo.get_user_by_email Repo.confirmed_email
  apply find?_map_of_pred
  intro x
  by_cases he : x.email = em2 <;> simp [he]

/-- Chronological date comparison forces the year order. -/
theorem dateLeb_year_le {a b : MDate} (h : dateLeb a b = true) : a.year ≤ b.year := by
  unfold dateLeb at h
  by_cases hy : a.year = b.year
  · exact Nat.le_of_eq hy
  · simp only [hy, ne_eq, not_false_iff, if_true, decide_eq_true_eq] at h
    exact Nat.le_of_lt h

/-- January has 31 days, in every year. -/
theorem daysInMonth_one (y : Nat) : daysInMonth y 1 = 31 := by
  simp [daysInMonth]

/-- The three branches of `nextDay`, each with its firing condition. -/
theorem nextDay_cases (e : MDate) :
    (nextDay e = ⟨e.year, e.month, e.day + 1⟩ ∧ e.day < daysInMonth e.year e.month) ∨
    (nextDay e = ⟨e.year, e.month + 1, 1⟩ ∧
      ¬ e.day < daysInMonth e.year e.month ∧ e.month < 12) ∨
    (nextDay e = ⟨e.year + 1, 1, 1⟩ ∧
      ¬ e.day < daysInMonth e.year e.month ∧ ¬ e.month < 12) := by
  unfold nextDay
  by_cases h1 : e.day < daysInMonth e.year e.month
  · exact Or.inl ⟨by simp [h1], h1⟩
  · by_cases h2 : e.month < 12
    · exact Or.inr (Or.inl ⟨by simp [h1, h2], h1, h2⟩)
    · exact Or.inr (Or.inr ⟨by simp [h1, h2], h1, h2⟩)

/-- One `nextDay` step preserves the year bound of `addDays_small_year`. -/
theorem addDays_year_step (d e : MDate) (n : Nat) (hn : n ≤ 29)
    (h1 : e.year ≤ d.year + 1) (h2 : e.year = d.year + 1 → e.month = 1 ∧ e.day ≤ n) :
    (nextDay e).year ≤ d.year + 1 ∧
      ((nextDay e).year = d.year + 1 → (nextDay e).month = 1 ∧ (nextDay e).day ≤ n + 1) := by
  rcases nextDay_cases e with ⟨heq, _⟩ | ⟨heq, hge, _⟩ | ⟨heq, _, hm12⟩
  · rw [heq]
    refine ⟨h1, fun hy => ?_⟩
    obtain ⟨hm, hd⟩ := h2 hy
    exact ⟨hm, by show e.day + 1 ≤ n + 1; omega⟩
  · rw [heq]
    refine ⟨h1, fun hy => ?_⟩
    obtain ⟨hm, hd⟩ := h2 hy
    exfalso
    apply hge
    rw [hm, daysInMonth_one]
    omega
  · rw [heq]
    have hey : e.year ≤ d.year := by
      by_contra hc
      have hy : e.year = d.year + 1 := by omega
      obtain ⟨hm, _⟩ := h2 hy
      rw [hm] at hm12
      exact hm12 (by omega)
    refine ⟨by show e.year + 1 ≤ d.year + 1; omega, fun _ => ?_⟩
    exact ⟨rfl, by show (1 : Nat) ≤ n + 1; omega⟩

/-- Adding at most 30 days moves the year up by at most one, and when it
does move, the result sits in the first days of January. -/
theorem addDays_small_year (d : MDate) :
    ∀ k, k ≤ 30 → (addDays d k).year ≤ d.year + 1 ∧
      ((addDays d k).year = d.year + 1 → (addDays d k).month = 1 ∧ (addDays d k).day ≤ k) := by
  intro k
  induction k with
  | zero =>
    intro _
    refine ⟨Nat.le_succ d.year, fun h => ?_⟩
    have h2 : d.year = d.year + 1 := h
    omega
  | succ n ih =>
    intro hk
    have hn := ih (by omega)
    exact addDays_year_step d (addDays d n) n (by omega) hn.1 hn.2

/-! ### Claims -/

/-- C6: the code does not satisfy the claim that `request_email` always
returns a 200 status message: when no user has the given email, the
handler dereferences `user.confirmed` on None and the request dies with
an AttributeError (server error) instead of returning a message.  The
theorem evaluates the handler at the failing input (an email with no
registered user). -/
theorem request_email_absent_user_crashes :
    Routes.request_email ⟨[], 0⟩ "ghost@x" =
      (⟨[], 0⟩, [], Except.error (RespError.attributeError "NoneType has no attribute confirmed")) ∧
    Routes.request_email ⟨[w3_confirmed], 0⟩ "b@x" =
      (⟨[w3_confirmed], 0⟩, [], Except.ok "Your email is already confirmed") := by
  exact ⟨rfl, rfl⟩

/-- C1: refresh-token storage is single-slot.  After a successful refresh
the stored token of the refreshing user equals the newly minted refresh
token, and presenting any previously issued token for that user (its id
predates the call, which covers the token just consumed) to a subsequent
refresh fails with a 401. -/
theorem refresh_rotation_single_slot (st st2 : AuthState) (tok : Token) (pair : TokenPair)
    (_hiss : tok.id < st.nextTokenId)
    (hok : Routes.refresh_token st tok = (st2, Except.ok pair)) :
    ∃ u2, Repo.get_user_by_email tok.sub st2.users = some u2 ∧
      u2.refresh_token = some pair.refresh_token ∧
      ∀ t : Token, t.sub = tok.sub → t.id < st.nextTokenId →
        ∃ d, (Routes.refresh_token st2 t).2 = Except.error (RespError.http 401 d) := by
  unfold Routes.refresh_token at hok
  by_cases hs : tok.scope = Scope.refresh
  · simp only [decode_refresh_token, hs, if_pos] at hok
    cases hu : Repo.get_user_by_email tok.sub st.users with
    | none =>
      simp only [hu] at hok
      exact absurd hok (by simp)
    | some user =>
      simp only [hu] at hok
      by_cases heq : user.refresh_token = some tok
      · have hcond : ¬ user.refresh_token ≠ some tok := by simp [heq]
        rw [if_neg hcond] at hok
        simp only [create_access_token, create_refresh_token] at hok
        rw [Prod.mk.injEq] at hok
        obtain ⟨hst, hp⟩ := hok
        rw [Except.ok.injEq] at hp
        subst hst
        subst hp
        have hlk : Repo.get_user_by_email tok.sub
            (Repo.update_token user (some ⟨st.nextTokenId + 1, tok.sub, Scope.refresh⟩) st.users) =
            some { user with refresh_token := some ⟨st.nextTokenId + 1, tok.sub, Scope.refresh⟩ } := by
          rw [get_user_by_email_update_token, hu]
          simp
        refine ⟨{ user with refresh_token := some ⟨st.nextTokenId + 1, tok.sub, Scope.refresh⟩ },
          hlk, rfl, ?_⟩
        intro t hsub hid
        by_cases ts : t.scope = Scope.refresh
        · refine ⟨"Invalid refresh token", ?_⟩
          have hne : ({ user with refresh_token := some ⟨st.nextTokenId + 1, tok.sub, Scope.refresh⟩ } : User).refresh_token ≠
              some t := by
            simp only [ne_eq, Option.some.injEq]
            intro hcontra
            have hidt : t.id = st.nextTokenId + 1 := by rw [← hcontra]
            omega
          unfold Routes.refresh_token
          simp only [decode_refresh_token, ts, if_pos, hsub, hlk]
          rw [if_pos hne]
        · refine ⟨"Could not validate credentials", ?_⟩
          unfold Routes.refresh_token
          simp [decode_refresh_token, ts]
      · rw [if_pos heq] at hok
        exact absurd hok (by simp)
  · simp [decode_refresh_token, hs] at hok

/-- C1 witness: a concrete successful refresh, instantiating the theorem. -/
theorem refresh_rotation_single_slot_witness :
    (w1_tok.id < w1_st.nextTokenId ∧
     Routes.refresh_token w1_st w1_tok = (w1_st2, Except.ok w1_pair)) ∧
    (∃ u2, Repo.get_user_by_email w1_tok.sub w1_st2.users = some u2 ∧
      u2.refresh_token = some w1_pair.refresh_token ∧
      ∀ t : Token, t.sub = w1_tok.sub → t.id < w1_st.nextTokenId →
        ∃ d, (Routes.refresh_token w1_st2 t).2 = Except.error (RespError.http 401 d)) :=
  ⟨⟨by decide, rfl⟩, refresh_rotation_single_slot w1_st w1_st2 w1_tok w1_pair (by decide) rfl⟩

/-- C2: when the presented refresh token decodes to a user whose stored
token differs, the route clears the stored token, issues no new pair
(the mint counter is untouched) and fails with 401. -/
theorem refresh_reuse_clears_session (st : AuthState) (tok : Token) (email : String)
    (user : User)
    (hdec : decode_refresh_token tok = some email)
    (huser : Repo.get_user_by_email email st.users = some user)
    (hmis : user.refresh_token ≠ some tok) :
    Routes.refresh_token st tok =
      ({ st with users := Repo.update_token user none st.users },
       Except.error (RespError.http 401 "Invalid refresh token")) ∧
    Repo.get_user_by_email email (Routes.refresh_token st tok).1.users =
      some { user with refresh_token := none } ∧
    (Routes.refresh_token st tok).1.nextTokenId = st.nextTokenId := by
  have h1 : Routes.refresh_token st tok =
      ({ st with users := Repo.update_token user none st.users },
       Except.error (RespError.http 401 "Invalid refresh token")) := by
    unfold Routes.refresh_token
    simp only [hdec, huser]
    rw [if_pos hmis]
  refine ⟨h1, ?_, ?_⟩
  · rw [h1]
    show Repo.get_user_by_email email (Repo.update_token user none st.users) = _
    rw [get_user_by_email_update_token, huser]
    simp
  · rw [h1]

/-- C2 witness: a concrete stale-token refresh, instantiating the theorem. -/
theorem refresh_reuse_clears_session_witness :
    (decode_refresh_token w2_tok = some "b@x" ∧
     Repo.get_user_by_email "b@x" w2_st.users = some w2_user ∧
     w2_user.refresh_token ≠ some w2_tok) ∧
    (Routes.refresh_token w2_st w2_tok =
      ({ w2_st with users := Repo.update_token w2_user none w2_st.users },
       Except.error (RespError.http 401 "Invalid refresh token")) ∧
     Repo.get_user_by_email "b@x" (Routes.refresh_token w2_st w2_tok).1.users =
       some { w2_user with refresh_token := none } ∧
     (Routes.refresh_token w2_st w2_tok).1.nextTokenId = w2_st.nextTokenId) :=
  ⟨⟨rfl, rfl, by decide⟩,
   refresh_reuse_clears_session w2_st w2_tok "b@x" w2_user rfl rfl (by decide)⟩

/-- C3 counterexample: the three login failure causes are surfaced with
three pairwise distinct detail messages, so the causes are distinguished
to the caller, contrary to the claim text. -/
theorem login_errors_distinguish_causes :
    (Routes.login ⟨[], 0⟩ "b@x" "pw").2 = Except.error (RespError.http 401 "Invalid email") ∧
    (Routes.login w3_st "b@x" "pw").2 =
      Except.error (RespError.http 401 "Email is not confirmed") ∧
    (Routes.login w3_st2 "b@x" "bad").2 =
      Except.error (RespError.http 401 "Invalid password") ∧
    ("Invalid email" ≠ "Email is not confirmed" ∧
     "Invalid email" ≠ "Invalid password" ∧
     "Email is not confirmed" ≠ "Invalid password") :=
  ⟨rfl, rfl, rfl, by decide⟩

/-- C3 (amended): login fails exactly in the three cases — no such user,
unconfirmed user, failed password verification — always with status 401,
but with a cause-specific detail message; in every other case it
succeeds with a token pair. -/
theorem login_failure_three_cases (st : AuthState) (u p : String) :
    (Repo.get_user_by_email u st.users = none →
      Routes.login st u p = (st, Except.error (RespError.http 401 "Invalid email"))) ∧
    (∀ user, Repo.get_user_by_email u st.users = some user → user.confirmed = false →
      Routes.login st u p = (st, Except.error (RespError.http 401 "Email is not confirmed"))) ∧
    (∀ user, Repo.get_user_by_email u st.users = some user → user.confirmed = true →
      verify_password p user.password = false →
      Routes.login st u p = (st, Except.error (RespError.http 401 "Invalid password"))) ∧
    (∀ user, Repo.get_user_by_email u st.users = some user → user.confirmed = true →
      verify_password p user.password = true →
      ∃ pair, (Routes.login st u p).2 = Except.ok pair) := by
  refine ⟨fun h => ?_, fun user h hc => ?_, fun user h hc hv => ?_, fun user h hc hv => ?_⟩
  · simp [Routes.login, h]
  · simp [Routes.login, h, hc]
  · simp [Routes.login, h, hc, hv]
  · exact ⟨{ access_token := ⟨st.nextTokenId, user.email, Scope.access⟩,
             refresh_token := ⟨st.nextTokenId + 1, user.email, Scope.refresh⟩,
             token_type := "bearer" },
           by simp [Routes.login, h, hc, hv, create_access_token, create_refresh_token]⟩

/-- C3 witness: the no-such-user case at a concrete empty state. -/
theorem login_failure_three_cases_witness :
    Repo.get_user_by_email "b@x" (⟨[], 0⟩ : AuthState).users = none ∧
    Routes.login ⟨[], 0⟩ "b@x" "pw" =
      (⟨[], 0⟩, Except.error (RespError.http 401 "Invalid email")) :=
  ⟨rfl, (login_failure_three_cases ⟨[], 0⟩ "b@x" "pw").1 rfl⟩

/-- C4: a failed login leaves the whole state — in particular every
stored refresh token — unchanged. -/
theorem failed_login_preserves_state (st : AuthState) (u p : String) (e : RespError)
    (h : (Routes.login st u p).2 = Except.error e) :
    (Routes.login st u p).1 = st := by
  unfold Routes.login at h ⊢
  cases hl : Repo.get_user_by_email u st.users with
  | none => simp [hl]
  | some user =>
    simp only [hl] at h ⊢
    by_cases hc : user.confirmed = false
    · simp [hc]
    · by_cases hv : verify_password p user.password = false
      · simp [hc, hv]
      · simp [hc, hv] at h

/-- C4 witness: a concrete wrong-password login, instantiating the
theorem. -/
theorem failed_login_preserves_state_witness :
    (Routes.login w3_st2 "b@x" "bad").2 =
      Except.error (RespError.http 401 "Invalid password") ∧
    (Routes.login w3_st2 "b@x" "bad").1 = w3_st2 :=
  ⟨rfl, failed_login_preserves_state w3_st2 "b@x" "bad"
    (RespError.http 401 "Invalid password") rfl⟩

/-- C5: email confirmation is idempotent.  A first confirm on a valid
token for an existing unconfirmed user flips the flag and reports
"Email confirmed"; any further confirm with a valid token for the same
user reports "already confirmed" with no error and no state change. -/
theorem confirm_idempotent (st : AuthState) (tok : Token) (em : String) (user : User)
    (htok : get_email_from_token tok = some em)
    (huser : Repo.get_user_by_email em st.users = some user)
    (hunconf : user.confirmed = false) :
    (Routes.confirmed_email st tok).2 = Except.ok "Email confirmed" ∧
    Repo.get_user_by_email em (Routes.confirmed_email st tok).1.users =
      some { user with confirmed := true } ∧
    ∀ tok2, get_email_from_token tok2 = some em →
      Routes.confirmed_email (Routes.confirmed_email st tok).1 tok2 =
        ((Routes.confirmed_email st tok).1, Except.ok "Your email is already confirmed") := by
  have huem : user.email = em := by
    have h0 := List.find?_some (p := fun u : User => u.email == em)
      (by simpa [Repo.get_user_by_email] using huser)
    simpa using h0
  have h1 : Routes.confirmed_email st tok =
      ({ st with users := Repo.confirmed_email em st.users }, Except.ok "Email confirmed") := by
    unfold Routes.confirmed_email
    simp [htok, huser, hunconf]
  have h2 : Repo.get_user_by_email em (Routes.confirmed_email st tok).1.users =
      some { user with confirmed := true } := by
    rw [h1]
    show Repo.get_user_by_email em (Repo.confirmed_email em st.users) = _
    rw [get_user_by_email_confirmed, huser]
    simp [huem]
  refine ⟨by rw [h1], h2, ?_⟩
  intro tok2 htok2
  set st1 := (Routes.confirmed_email st tok).1 with hst1
  simp [Routes.confirmed_email, htok2, h2]

/-- C5 witness: a concrete double confirmation, instantiating the
theorem. -/
theorem confirm_idempotent_witness :
    (get_email_from_token w5_tok = some "c@x" ∧
     Repo.get_user_by_email "c@x" w5_st.users = some w5_user ∧
     w5_user.confirmed = false) ∧
    ((Routes.confirmed_email w5_st w5_tok).2 = Except.ok "Email confirmed" ∧
     Repo.get_user_by_email "c@x" (Routes.confirmed_email w5_st w5_tok).1.users =
       some { w5_user with confirmed := true } ∧
     ∀ tok2, get_email_from_token tok2 = some "c@x" →
       Routes.confirmed_email (Routes.confirmed_email w5_st w5_tok).1 tok2 =
         ((Routes.confirmed_email w5_st w5_tok).1,
          Except.ok "Your email is already confirmed")) :=
  ⟨⟨rfl, rfl, rfl⟩, confirm_idempotent w5_st w5_tok "c@x" w5_user rfl rfl rfl⟩

/-- C7: signup returns 409 Conflict exactly when a user with the email
already exists; otherwise it creates the user with the hashed password
(confirmed false, no refresh token), queues the confirmation email and
returns the created user. -/
theorem signup_conflict_or_create (st : AuthState) (body : UserSchema) :
    (∀ u, Repo.get_user_by_email body.email st.users = some u →
       Routes.signup st body = (st, [], Except.error (RespError.http 409 ACCOUNT_EXIST))) ∧
    (Repo.get_user_by_email body.email st.users = none →
       ∃ nu, Routes.signup st body =
           ({ st with users := st.users ++ [nu] }, [nu.email], Except.ok nu) ∧
         nu.password = get_password_hash body.password ∧
         nu.email = body.email ∧
         nu.username = body.username ∧
         nu.confirmed = false ∧
         nu.refresh_token = none) := by
  constructor
  · intro u hu
    simp [Routes.signup, hu]
  · intro hn
    refine ⟨{ id := st.users.length, username := body.username, email := body.email,
              password := get_password_hash body.password,
              avatar := some (gravatar_image body.email),
              refresh_token := none, confirmed := false },
            ?_, rfl, rfl, rfl, rfl, rfl⟩
    simp [Routes.signup, Repo.create_user, hn]

/-- C7 witness: a concrete signup on an empty user table, instantiating
the theorem. -/
theorem signup_conflict_or_create_witness :
    Repo.get_user_by_email w7_body.email (⟨[], 0⟩ : AuthState).users = none ∧
    (∃ nu, Routes.signup ⟨[], 0⟩ w7_body =
        ({ (⟨[], 0⟩ : AuthState) with users := (⟨[], 0⟩ : AuthState).users ++ [nu] },
         [nu.email], Except.ok nu) ∧
      nu.password = get_password_hash w7_body.password ∧
      nu.email = w7_body.email ∧
      nu.username = w7_body.username ∧
      nu.confirmed = false ∧
      nu.refresh_token = none) :=
  ⟨rfl, (signup_conflict_or_create ⟨[], 0⟩ w7_body).2 rfl⟩

/-- C9: the repository delete returns an absent result without raising,
but the route layer does not convert the absence into a 404: the route
result is always `ok` with the repository result (so a missing contact is
reported as 204 success), contradicting both the claim and the route
docstring.  Evaluated at the failing input (deleting contact 1 from an
empty table) and stated in general. -/
theorem delete_contact_route_never_404 :
    Repo.delete_contact 1 ⟨[], 0⟩ w9_user = (none, ⟨[], 0⟩) ∧
    Routes.delete_contact 1 ⟨[], 0⟩ w9_user = (⟨[], 0⟩, Except.ok none) ∧
    ∀ cid db u, (Routes.delete_contact cid db u).2 =
      Except.ok (Repo.delete_contact cid db u).1 := by
  exact ⟨rfl, rfl, fun _ _ _ => rfl⟩

/-- C8: every contact operation is scoped to the requesting user.  The
read operations only ever return contacts owned by the user; create
inserts a contact owned by the user and keeps every existing row;
update and delete return only contacts owned by the user and leave the
rows of every other user untouched. -/
theorem contacts_user_scoped (user : User) :
    (∀ limit offset db c, c ∈ Repo.get_contacts limit offset db user → c.user_id = user.id) ∧
    (∀ q db c, c ∈ Repo.search_contacts q db user → c.user_id = user.id) ∧
    (∀ cid db c, Repo.get_contact cid db user = some c → c.user_id = user.id) ∧
    (∀ today db c, c ∈ Repo.get_upcoming_birthdays today db user → c.user_id = user.id) ∧
    (∀ body db, (Repo.create_contact body db user).1.user_id = user.id ∧
       (Repo.create_contact body db user).2.rows =
         db.rows ++ [(Repo.create_contact body db user).1]) ∧
    (∀ cid body db,
       (∀ c, (Repo.update_contact cid body db user).1 = some c → c.user_id = user.id) ∧
       (Repo.update_contact cid body db user).2.rows.filter (fun x => !(x.user_id == user.id)) =
         db.rows.filter (fun x => !(x.user_id == user.id))) ∧
    (∀ cid db,
       (∀ c, (Repo.delete_contact cid db user).1 = some c → c.user_id = user.id) ∧
       (Repo.delete_contact cid db user).2.rows.filter (fun x => !(x.user_id == user.id)) =
         db.rows.filter (fun x => !(x.user_id == user.id))) := by
  refine ⟨?_, ?_, ?_, ?_, ?_, ?_, ?_⟩
  · intro limit offset db c hc
    unfold Repo.get_contacts at hc
    have h2 : c ∈ db.rows.filter (fun c => c.user_id == user.id) :=
      List.drop_subset _ _ (List.take_subset _ _ hc)
    have h3 := (List.mem_filter.mp h2).2
    simpa using h3
  · intro q db c hc
    unfold Repo.search_contacts at hc
    have h2 := (List.mem_filter.mp hc).1
    have h3 := (List.mem_filter.mp h2).2
    simpa using h3
  · intro cid db c hc
    unfold Repo.get_contact at hc
    have h2 := List.find?_some hc
    simp only [Bool.and_eq_true, beq_iff_eq] at h2
    exact h2.2
  · intro today db c hc
    unfold Repo.get_upcoming_birthdays at hc
    have h2 := (List.mem_filter.mp hc).1
    have h3 := (List.mem_filter.mp h2).2
    simpa using h3
  · intro body db
    exact ⟨rfl, rfl⟩
  · intro cid body db
    cases hfind : db.rows.find? (fun c => c.id == cid && c.user_id == user.id) with
    | none =>
      constructor
      · intro c hc
        simp only [Repo.update_contact, hfind] at hc
        cases hc
      · simp only [Repo.update_contact, hfind]
    | some c0 =>
      have howner : (c0.user_id == user.id) = true := by
        have h2 := List.find?_some hfind
        exact ((Bool.and_eq_true _ _).mp h2).2
      constructor
      · intro c hc
        simp only [Repo.update_contact, hfind, Option.some.injEq] at hc
        rw [← hc]
        show c0.user_id = user.id
        simpa using howner
      · simp only [Repo.update_contact, hfind]
        apply filter_map_id_of_pred
        · intro x hx
          have hxo : (x.user_id == user.id) = false := by
            cases hxe : x.user_id == user.id with
            | true => rw [hxe] at hx; simp at hx
            | false => rfl
          simp [hxo]
        · intro x
          by_cases hcond : (x.id == cid && x.user_id == user.id) = true
          · obtain ⟨hxc, hxo⟩ := (Bool.and_eq_true _ _).mp hcond
            have hxid : x.id = cid := by simpa using hxc
            simp [hcond, hxid, hxo, howner]
          · simp [hcond]
  · intro cid db
    cases hfind : db.rows.find? (fun c => c.id == cid && c.user_id == user.id) with
    | none =>
      constructor
      · intro c hc
        simp only [Repo.delete_contact, hfind] at hc
        cases hc
      · simp only [Repo.delete_contact, hfind]
    | some c0 =>
      have howner : (c0.user_id == user.id) = true := by
        have h2 := List.find?_some hfind
        exact ((Bool.and_eq_true _ _).mp h2).2
      constructor
      · intro c hc
        simp only [Repo.delete_contact, hfind, Option.some.injEq] at hc
        rw [← hc]
        simpa using howner
      · simp only [Repo.delete_contact, hfind]
        apply filter_erase_of_neg
        simp [howner]

/-- C8 witness: a concrete lookup by id returning a contact owned by the
requesting user, instantiating the theorem. -/
theorem contacts_user_scoped_witness :
    Repo.get_contact 1 w8_db w8_user = some w8_contact ∧
    w8_contact.user_id = w8_user.id :=
  ⟨rfl, (contacts_user_scoped w8_user).2.2.1 1 w8_db w8_contact rfl⟩

/-- C10: the upcoming-birthdays query compares the stored birthday as a
full date, year included: a contact is returned exactly when it belongs
to the user and its full birthday lies between today and today plus 7
days inclusive; hence a contact whose birthday year is neither the
current year nor the next is never returned, whatever its month and
day. -/
theorem upcoming_birthdays_full_date (today : MDate) (db : ContactsDb) (user : User) :
    (∀ c, c ∈ Repo.get_upcoming_birthdays today db user ↔
        (c ∈ db.rows ∧ c.user_id = user.id ∧
         dateLeb today c.birthday = true ∧
         dateLeb c.birthday (addDays today 7) = true)) ∧
    (∀ c, c.birthday.year ≠ today.year → c.birthday.year ≠ today.year + 1 →
        c ∉ Repo.get_upcoming_birthdays today db user) := by
  have hmem : ∀ c, c ∈ Repo.get_upcoming_birthdays today db user ↔
      (c ∈ db.rows ∧ c.user_id = user.id ∧ dateLeb today c.birthday = true ∧
       dateLeb c.birthday (addDays today 7) = true) := by
    intro c
    unfold Repo.get_upcoming_birthdays
    simp only [List.mem_filter, Bool.and_eq_true, beq_iff_eq]
    tauto
  refine ⟨hmem, ?_⟩
  intro c hy1 hy2 hc
  rw [hmem c] at hc
  obtain ⟨-, -, h3, h4⟩ := hc
  have ha := dateLeb_year_le h3
  have hb := dateLeb_year_le h4
  have hyr := (addDays_small_year today 7 (by omega)).1
  omega

/-- C10 witness: a contact with an out-of-range birthday year (1990) is
not returned for a 2026 today, instantiating the theorem. -/
theorem upcoming_birthdays_full_date_witness :
    (w10_contact.birthday.year ≠ w10_today.year ∧
     w10_contact.birthday.year ≠ w10_today.year + 1) ∧
    w10_contact ∉ Repo.get_upcoming_birthdays w10_today w10_db w10_user :=
  ⟨by decide, (upcoming_birthdays_full_date w10_today w10_db w10_user).2 w10_contact
    (by decide) (by decide)⟩

end Web14

